import Mathlib

/-!
Verification of the SurgeSync validation core against its design document.

Shallow embedding of:
  * `backend/rule_application.py`  (`RuleApplicationEngine`)
  * `backend/validator.py`         (`ValidationOrchestrator.validate` and helpers)
  * `backend/suggestion_generator.py` (`SuggestionGenerator`, `SuggestionPrioritizer`)

Python dictionaries that carry a fixed set of keys are embedded as structures;
keys that some code path leaves absent are embedded as `Option` fields whose
`none` marks an absent key.  External effects (git staging digests, the four
checker invocations, the configuration file, the steering-rules document and
wall-clock timing) are supplied through an explicit environment record, since
the corresponding Python code shells out to git, reads the filesystem or
imports the out-of-scope checker modules.
-/

/-! ### Python string primitives -/

/-- Python `str.replace` on character lists: non-overlapping occurrences of
`pat` are replaced by `rep`, scanning left to right, and replaced text is not
rescanned.  The fuel argument is the length of the scanned list; every step
consumes at least one character, so the fuel never runs out on the initial
call (the source never calls `replace` with an empty pattern). -/
def pyReplaceAux (pat rep : List Char) : Nat → List Char → List Char
  | 0, s => s
  | _ + 1, [] => []
  | fuel + 1, c :: rest =>
    if !pat.isEmpty && pat.isPrefixOf (c :: rest) then
      rep ++ pyReplaceAux pat rep fuel ((c :: rest).drop pat.length)
    else
      c :: pyReplaceAux pat rep fuel rest

/-- Python `s.replace(pat, rep)` for strings. -/
def pyReplace (s pat rep : String) : String :=
  String.mk (pyReplaceAux pat.data rep.data s.data.length s.data)

/-- Python `str.lower` (the descriptions handled by the source are ASCII). -/
def lowerStr (s : String) : String :=
  String.mk (s.data.map Char.toLower)

/-- `needle` occurs as a contiguous sublist of `hay`. -/
def isSubListOf (needle : List Char) : List Char → Bool
  | [] => needle.isEmpty
  | hay@(_ :: rest) => needle.isPrefixOf hay || isSubListOf needle rest

/-- Python `needle in hay` for strings (substring containment). -/
def containsSub (hay needle : String) : Bool :=
  isSubListOf needle.data hay.data

/-- Python's falsy-empty-string `or`: `a or b`. -/
def pyOr (a b : String) : String :=
  if a = "" then b else a

/-- Python `a or b` where `a` is an `Optional[str]` (`None` and `""` are falsy). -/
def pyOrOpt (a : Option String) (b : String) : String :=
  match a with
  | some s => pyOr s b
  | none => b

/-- Python's `\s` character class: `[ \t\n\r\f\v]`. -/
def pyIsSpace (c : Char) : Bool :=
  c = ' ' || c = '\t' || c = '\n' || c = '\r' || c = '\x0b' || c = '\x0c'

/-! ### The regular expressions produced by `_matches_pattern` / `_expand_pattern`

`RuleApplicationEngine._matches_pattern` builds a regex string from a glob
pattern by five textual `str.replace` steps and then anchors it as `^...$`.
The regex strings this produces (for the glob syntax the steering rules use)
are sequences of: literal characters, `.` (any character but newline),
`[^/]*`, and named groups `(?P<name>[^/]+)`.  We parse that regex string into
tokens and run a greedy backtracking matcher with Python `re` semantics
(leftmost-longest per greedy quantifier, full match because of the anchors;
the `$`-before-a-final-newline corner of Python `re` does not arise for the
path inputs involved). -/

inductive RTok where
  | lit : Char → RTok
  | dot : RTok
  | starNS : RTok
  | group : String → RTok
deriving DecidableEq, Repr

/-- Parse the regex text produced by the source's glob-to-regex conversion into
tokens.  The fuel argument is the length of the list; every step consumes at
least one character.  A `(?P<` that is not followed by a well-formed
`name>[^/]+)` tail would make Python's `re.compile` fail; we keep the parser
total by emitting the `(` literally (unreachable for the regexes the source
builds from its glob syntax). -/
def parseTokensAux : Nat → List Char → List RTok
  | 0, _ => []
  | _ + 1, [] => []
  | fuel + 1, cs =>
    if "[^/]*".data.isPrefixOf cs then
      .starNS :: parseTokensAux fuel (cs.drop 5)
    else if "(?P<".data.isPrefixOf cs then
      let rest := cs.drop 4
      let name := rest.takeWhile (· ≠ '>')
      let after := rest.drop name.length
      if ">[^/]+)".data.isPrefixOf after then
        .group (String.mk name) :: parseTokensAux fuel (after.drop 7)
      else
        .lit '(' :: parseTokensAux fuel (cs.drop 1)
    else
      match cs with
      | '.' :: rest => .dot :: parseTokensAux fuel rest
      | c :: rest => .lit c :: parseTokensAux fuel rest
      | [] => []

def parseTokens (cs : List Char) : List RTok :=
  parseTokensAux cs.length cs

/-- Length of the maximal prefix of non-`/` characters (the candidates a
greedy `[^/]*` or `[^/]+` can consume). -/
def nonSlashRun (cs : List Char) : Nat :=
  (cs.takeWhile (· ≠ '/')).length

/-- Greedy backtracking matcher for the token language, returning the named
captures (`re.match(...).groupdict()`, in group-definition order) of the
leftmost-greedy full match, or `none` when the whole input does not match.
Greedy quantifiers try the longest candidate first, exactly as Python's
backtracking engine does for these patterns. -/
def reMatch : List RTok → List Char → Option (List (String × String))
  | [], [] => some []
  | [], _ :: _ => none
  | .lit _ :: _, [] => none
  | .lit c :: ts, d :: ds => if d = c then reMatch ts ds else none
  | .dot :: _, [] => none
  | .dot :: ts, d :: ds => if d = '\n' then none else reMatch ts ds
  | .starNS :: ts, ds =>
    ((List.range (nonSlashRun ds + 1)).reverse).findSome? fun k =>
      reMatch ts (ds.drop k)
  | .group nm :: ts, ds =>
    ((List.range (nonSlashRun ds + 1)).reverse).findSome? fun k =>
      if k = 0 then none
      else (reMatch ts (ds.drop k)).map fun caps =>
        (nm, String.mk (ds.take k)) :: caps

/-- The glob-to-regex conversion shared verbatim by `_matches_pattern` and
`_expand_pattern` (the source duplicates these five `replace` lines in both
methods): `**/` and `**` first, then `*`, then the `{name}` capture syntax,
then anchoring. -/
def globToRegex (pattern : String) : String :=
  let r := pyReplace pattern "**/" ".*/"
  let r := pyReplace r "**" ".*"
  let r := pyReplace r "*" "[^/]*"
  let r := pyReplace r "\x7b" "(?P<"
  let r := pyReplace r "\x7d" ">[^/]+)"
  "^" ++ r ++ "$"

/-- Strip the `^`/`$` the source appends; the matcher is a full matcher. -/
def innerRegex (anchored : String) : List Char :=
  (anchored.data.drop 1).dropLast

/-- `re.match` of the compiled-and-anchored pattern against a path, returning
the named captures. -/
def reFullMatch (pattern path : String) : Option (List (String × String)) :=
  reMatch (parseTokens (innerRegex (globToRegex pattern))) path.data

/-- `RuleApplicationEngine._matches_pattern(file_path, pattern)`. -/
def matches_pattern (file_path pattern : String) : Bool :=
  (reFullMatch pattern file_path).isSome

/-- `RuleApplicationEngine._expand_pattern(file_path, source_pattern,
target_pattern)`: match the source pattern, then substitute each captured
`{name}` into the target in group-definition order. -/
def expand_pattern (file_path source_pattern target_pattern : String) : String :=
  match reFullMatch source_pattern file_path with
  | none => target_pattern
  | some caps =>
    caps.foldl (fun res p => pyReplace res ("\x7b" ++ p.1 ++ "\x7d") p.2) target_pattern

/-! ### Data model

Issue dictionaries come from the checkers; the source reads them only through
`dict.get`, so every field is optional (`none` = key absent). -/

structure Issue where
  type : Option String := none
  description : Option String := none
  file : Option String := none
  suggestion : Option String := none
deriving DecidableEq, Repr

/-- The conflict dictionaries built by
`RuleApplicationEngine.detect_rule_drift_conflicts`. -/
structure Conflict where
  type : String
  file : String
  drift_issue : Issue
  message : String
  priority : String
deriving DecidableEq, Repr

/-- The report dictionaries the orchestrator consumes.  The source reads
reports only via `dict.get` with these defaults (`aligned` defaults `True`,
`has_issues` defaults `False`, `total_issues` defaults `0`, the issue
containers default empty), so a report dictionary that lacks a key behaves
exactly like this record with the corresponding default. -/
structure Report where
  aligned : Bool := true
  has_issues : Bool := false
  total_issues : Nat := 0
  issues_by_file : List (String × List Issue) := []
  issues : List Issue := []
deriving DecidableEq, Repr

/-- `Suggestion` objects of `backend/suggestion_generator.py` (the `priority`
attribute is mutated after creation by `assign_impact_scores`, hence plain
data here). -/
structure Suggestion where
  type : String
  priority : Int
  file : String
  description : String
  action : String
  rationale : String
deriving DecidableEq, Repr

/-- The validation-result dictionary assembled by
`ValidationOrchestrator.validate` / `_aggregate_validation_results` and
edited by `prioritize_alignment_over_rules`.  Fields that some code path
leaves absent from the dictionary are `Option` with `none` for the absent
key.  The `suggestions` payload type is a parameter: the payload is produced
by `_generate_suggestions`, which consults the filesystem and the external
checker report shapes, and no property proved here constrains its contents.
The `timing` key (wall-clock floats) is not modeled. -/
structure ValidationResult (σ : Type) where
  success : Bool
  message : String
  allowCommit : Bool
  drift_report : Option Report := none
  test_report : Option Report := none
  doc_report : Option Report := none
  bridge_report : Option Report := none
  suggestions : Option σ := none
  total_issues : Option Nat := none
  has_drift : Option Bool := none
  has_test_issues : Option Bool := none
  has_doc_issues : Option Bool := none
  has_bridge_issues : Option Bool := none
  conflicts : Option (List Conflict) := none
  timed_out : Bool := false
  partial_results : Option Bool := none
  staging_area_preserved : Bool := true
  staging_area_error : Option String := none
  timeout_error : Option String := none
deriving DecidableEq, Repr

/-! ### `RuleApplicationEngine` -/

/-- `RuleApplicationEngine.filter_ignored_files`: a file is kept iff it
matches no ignore pattern (the source's for-loop with `break` is the same as
`any`); input order is preserved. -/
def filter_ignored_files (ignore_patterns : List String) (staged_files : List String) :
    List String :=
  staged_files.filter fun file_path =>
    !(ignore_patterns.any fun pattern => matches_pattern file_path pattern)

/-- `RuleApplicationEngine.apply_correlation_patterns`.  The correlation
patterns are the dictionary `source_pattern -> [{'target': t}, ...]` in
insertion order, embedded as a pattern/target-list association list.  Each
staged file accumulates expanded targets of every matching source pattern,
skipping values already present. -/
def apply_correlation_patterns (correlation_patterns : List (String × List String))
    (staged_files : List String) : List (String × List String) :=
  staged_files.map fun file_path =>
    (file_path,
      correlation_patterns.foldl
        (fun acc sp =>
          if matches_pattern file_path sp.1 then
            sp.2.foldl
              (fun acc target_pattern =>
                let expanded_target := expand_pattern file_path sp.1 target_pattern
                if expanded_target ∈ acc then acc else acc ++ [expanded_target])
              acc
          else acc)
        [])

/-- The conflict dictionary `detect_rule_drift_conflicts` appends for an issue
on an ignored file. -/
def mk_drift_conflict (issue : Issue) : Conflict :=
  let issue_file := issue.file.getD ""
  { type := "ignored_file_with_drift"
    file := issue_file
    drift_issue := issue
    message := "Drift detected in \x27" ++ issue_file ++
      "\x27. Note: This file matches an ignore pattern in steering rules. If this is intentional, update the spec and steering rules."
    priority := "high" }

/-- `RuleApplicationEngine.detect_rule_drift_conflicts`: one conflict per
issue whose `file` lies in `set(all_files) - set(filtered_files)`. -/
def detect_rule_drift_conflicts (drift_issues : List Issue)
    (filtered_files all_files : List String) : List Conflict :=
  drift_issues.filterMap fun issue =>
    let issue_file := issue.file.getD ""
    if issue_file ∈ all_files ∧ issue_file ∉ filtered_files then
      some (mk_drift_conflict issue)
    else none

/-- The conflict summary `prioritize_alignment_over_rules` appends to the
result message. -/
def conflict_summary (conflicts : List Conflict) : String :=
  "\n\n⚠️ STEERING RULE CONFLICTS:\n" ++
    String.intercalate "\n" (conflicts.map fun c => "  - " ++ c.message)

/-- `RuleApplicationEngine.prioritize_alignment_over_rules`.  An empty
conflict list returns the result untouched; otherwise the conflicts are
appended to `result['conflicts']` (created empty when the key is absent), the
summary is appended to the message, and if any conflict has priority
`"high"`, `success` and `allowCommit` are forced to `False`. -/
def prioritize_alignment_over_rules {σ : Type} (conflicts : List Conflict)
    (validation_result : ValidationResult σ) : ValidationResult σ :=
  if conflicts = [] then validation_result
  else
    let r := { validation_result with
      conflicts := some (validation_result.conflicts.getD [] ++ conflicts) }
    let r := { r with message := r.message ++ conflict_summary conflicts }
    if conflicts.any fun c => c.priority = "high" then
      { r with success := false, allowCommit := false }
    else r

/-! ### `ValidationOrchestrator` -/

/-- The per-run validation context dictionary (built in `validate`, extended
by `apply_steering_rules`).  The wall-clock `timestamp` key is not modeled. -/
structure ValidationContext where
  branch : String
  staged_files : List String
  diff : String
  all_staged_files : List String := []
  file_mappings : List (String × List String) := []
  filtered_files : List String := []
  priorities : List (String × Nat) := []
  minimal_change_policy : List (String × String) := []
deriving DecidableEq, Repr

/-- The parsed steering-rules dictionary consumed by
`RuleApplicationEngine.__init__` (each field via `dict.get` with these
defaults).  Correlation targets are embedded as the list of the
`target_info['target']` strings. -/
structure SteeringRules where
  correlation_patterns : List (String × List String) := []
  ignore_patterns : List String := []
  validation_priorities : List (String × Nat) := []
  minimal_change_policy : List (String × String) := []
deriving DecidableEq, Repr

/-- The `git_context` argument of `validate` (keys read via `dict.get`). -/
structure GitContext where
  branch : Option String := none
  stagedFiles : Option (List String) := none
  diff : Option String := none
deriving DecidableEq, Repr

/-- `_load_validation_config()` output (defaults all-enabled). -/
structure ValidationConfig where
  check_spec_alignment : Bool := true
  check_test_coverage : Bool := true
  check_documentation : Bool := true
  check_bridge_contracts : Bool := true
deriving DecidableEq, Repr

/-- Where, if anywhere, the shared `SIGALRM` deadline fires inside the
`timeout_handler` block of `validate`.  `duringSetup` is any point before the
empty-file-list check; each `duringX` stage is a point inside that stage
(before its report assignment completes), regardless of whether the stage's
checker is enabled — the alarm is asynchronous and global, not per checker.
`duringSuggestions` covers any point after aggregation up to the end of the
guarded block (the timeout handler then discards the aggregated result). -/
inductive TimeoutPoint where
  | noTimeout
  | duringSetup
  | duringDrift
  | duringTest
  | duringDoc
  | duringBridge
  | duringAggregation
  | duringSuggestions
deriving DecidableEq, Repr

/-- Environment of one `validate` run: everything the orchestrator obtains
from outside the embedded core.  `stagingBefore`/`stagingAfter` are the two
`get_staging_area_state()` digests (git subprocesses).  The four reports are
what the `_run_*` wrappers would return (they import the external checker
modules and read the filesystem); `_load_validation_config` and the steering
rules document are likewise filesystem-backed.  `genSuggestions` stands for
`_generate_suggestions`, which consults the filesystem and the external
report shapes; its payload type `σ` is arbitrary because no property below
depends on the payload. -/
structure Env (σ : Type) where
  stagingBefore : String
  stagingAfter : String
  rules : SteeringRules
  config : ValidationConfig
  drift_report : Option Report
  test_report : Option Report
  doc_report : Option Report
  bridge_report : Option Report
  timeoutAt : TimeoutPoint
  timeoutSeconds : Nat := 30
  genSuggestions : Option Report → Option Report → Option Report → Option Report → σ

/-- `ValidationOrchestrator.apply_steering_rules` on the context (the engine
is freshly constructed from the parsed rules; timing not modeled). -/
def apply_steering_rules (rules : SteeringRules) (c : ValidationContext) :
    ValidationContext :=
  { c with
    all_staged_files := c.staged_files
    file_mappings := apply_correlation_patterns rules.correlation_patterns c.staged_files
    filtered_files := filter_ignored_files rules.ignore_patterns c.staged_files
    priorities := rules.validation_priorities
    minimal_change_policy := rules.minimal_change_policy }

/-- The issue lists collected by `_aggregate_validation_results` into
`all_issues`: drift issues flattened from `issues_by_file`, then test, doc
and bridge issues. -/
def aggregate_all_issues (drift_report test_report doc_report bridge_report :
    Option Report) : List Issue :=
  (match drift_report with
   | some r => r.issues_by_file.foldl (fun acc p => acc ++ p.2) []
   | none => []) ++
  (match test_report with | some r => r.issues | none => []) ++
  (match doc_report with | some r => r.issues | none => []) ++
  (match bridge_report with | some r => r.issues | none => [])

/-- The result dictionary `_aggregate_validation_results` builds before
conflict detection.  Python's truthiness of a report (`drift_report and ...`)
is `isSome` here (the orchestrator never passes empty report dictionaries); a
`None` report stores `None` into the `has_*` keys, which count as falsy for
the verdict. -/
def aggregate_base {σ : Type}
    (drift_report test_report doc_report bridge_report : Option Report) :
    ValidationResult σ :=
  let has_drift : Option Bool := drift_report.map fun r => !r.aligned
  let has_test_issues : Option Bool := test_report.map fun r => r.has_issues
  let has_doc_issues : Option Bool := doc_report.map fun r => r.has_issues
  let has_bridge_issues : Option Bool := bridge_report.map fun r => r.has_issues
  let success := !(has_drift.getD false || has_test_issues.getD false ||
    has_doc_issues.getD false || has_bridge_issues.getD false)
  let total_issues :=
    (match drift_report with | some r => r.total_issues | none => 0) +
    (match test_report with | some r => r.issues.length | none => 0) +
    (match doc_report with | some r => r.issues.length | none => 0) +
    (match bridge_report with | some r => r.total_issues | none => 0)
  let message :=
    if success then "All validations passed - commit can proceed"
    else
      let issue_parts :=
        (if has_drift.getD false then
          [toString ((drift_report.getD {}).total_issues) ++ " drift issue(s)"] else []) ++
        (if has_test_issues.getD false then
          [toString (test_report.getD {}).issues.length ++ " test coverage issue(s)"] else []) ++
        (if has_doc_issues.getD false then
          [toString (doc_report.getD {}).issues.length ++ " documentation issue(s)"] else []) ++
        (if has_bridge_issues.getD false then
          [toString ((bridge_report.getD {}).total_issues) ++ " contract drift issue(s)"] else [])
      "Validation failed: " ++ String.intercalate ", " issue_parts ++ " detected"
  { success := success
    message := message
    allowCommit := success
    total_issues := some total_issues
    has_drift := has_drift
    has_test_issues := has_test_issues
    has_doc_issues := has_doc_issues
    has_bridge_issues := has_bridge_issues }

/-- `ValidationOrchestrator._aggregate_validation_results`: the base result,
then — when the rule engine is loaded and a context was passed — rule-drift
conflict detection over `all_issues` and, for a non-empty conflict list,
`prioritize_alignment_over_rules`. -/
def aggregate_validation_results {σ : Type} (rule_engine_loaded : Bool)
    (drift_report test_report doc_report bridge_report : Option Report)
    (validation_context : Option ValidationContext) : ValidationResult σ :=
  let result : ValidationResult σ :=
    aggregate_base drift_report test_report doc_report bridge_report
  match validation_context with
  | some ctx =>
    if rule_engine_loaded then
      let conflicts := detect_rule_drift_conflicts
        (aggregate_all_issues drift_report test_report doc_report bridge_report)
        ctx.filtered_files ctx.all_staged_files
      if conflicts ≠ [] then prioritize_alignment_over_rules conflicts result
      else result
    else result
  | none => result

/-- The error message of `StagingAreaModifiedException` raised by
`verify_staging_area_unchanged`. -/
def staging_error_message : String :=
  "Staging area was modified during validation. Validation must run in read-only mode and never modify staged changes."

/-- The partial result dictionary built in the `except TimeoutException`
branch of `validate`, with whatever report variables were assigned before the
alarm fired (`'x' in locals()` is true for every report variable by then,
with value `None` for the not-yet-completed stages). -/
def timeout_result {σ : Type} (env : Env σ)
    (drift_report test_report doc_report bridge_report : Option Report) :
    ValidationResult σ :=
  { success := false
    message := "Validation timed out after " ++ toString env.timeoutSeconds ++
      " seconds. Partial results returned."
    allowCommit := false
    drift_report := drift_report
    test_report := test_report
    doc_report := doc_report
    bridge_report := bridge_report
    suggestions := none
    timeout_error := some ("Operation exceeded " ++ toString env.timeoutSeconds ++
      " second timeout") }

/-- The tail of `validate` after the `try`/`except`: attach the
`timed_out`/`partial_results` flags, capture the after-digest and run
`verify_staging_area_unchanged`; a mismatch overrides `success`,
`allowCommit` and the message with the critical staging error. -/
def finalize_result {σ : Type} (env : Env σ) (timed_out : Bool)
    (aggregated_result : ValidationResult σ) : ValidationResult σ :=
  let r := { aggregated_result with
    timed_out := timed_out
    partial_results := some timed_out }
  if env.stagingBefore = env.stagingAfter then
    { r with staging_area_preserved := true }
  else
    { r with
      staging_area_preserved := false
      staging_area_error := some staging_error_message
      success := false
      allowCommit := false
      message := "CRITICAL ERROR: " ++ staging_error_message }

/-- The early-return dictionary of `validate` when the filtered file list is
empty: success, all checkers skipped, and the staging digests compared only
into `staging_area_preserved` (the `bridge_report`, `partial_results`,
`conflicts` and `timeout_error` keys are absent from this dictionary). -/
def no_files_result {σ : Type} (env : Env σ) : ValidationResult σ :=
  { success := true
    message := "No files to validate (all files ignored by steering rules)"
    allowCommit := true
    drift_report := none
    test_report := none
    doc_report := none
    suggestions := none
    timed_out := false
    staging_area_preserved := env.stagingBefore == env.stagingAfter }

/-- `ValidationOrchestrator.validate(git_context)`.  The hot-reload check and
the timing bookkeeping touch only the filesystem clock and `timing_data`; the
reloaded rules are `env.rules`.  Control flow is the source's: build and
steer the context; short-circuit on an empty filtered list (returning from
inside the `try`, so skipping the final verification); otherwise run the
enabled checkers in order, aggregate, generate suggestions on failure; a
`TimeoutException` at `env.timeoutAt` diverts to the partial timeout result;
all non-early paths end in `finalize_result`. -/
def validate {σ : Type} (env : Env σ) (git_context : GitContext) :
    ValidationResult σ :=
  let validation_context : ValidationContext :=
    { branch := git_context.branch.getD "unknown"
      staged_files := git_context.stagedFiles.getD []
      diff := git_context.diff.getD "" }
  let validation_context := apply_steering_rules env.rules validation_context
  if env.timeoutAt = .duringSetup then
    finalize_result env true (timeout_result env none none none none)
  else
    let files_to_validate := validation_context.filtered_files
    if files_to_validate = [] then
      no_files_result env
    else if env.timeoutAt = .duringDrift then
      finalize_result env true (timeout_result env none none none none)
    else
      let drift_report :=
        if env.config.check_spec_alignment then env.drift_report else none
      if env.timeoutAt = .duringTest then
        finalize_result env true (timeout_result env drift_report none none none)
      else
        let test_report :=
          if env.config.check_test_coverage then env.test_report else none
        if env.timeoutAt = .duringDoc then
          finalize_result env true (timeout_result env drift_report test_report none none)
        else
          let doc_report :=
            if env.config.check_documentation then env.doc_report else none
          if env.timeoutAt = .duringBridge then
            finalize_result env true
              (timeout_result env drift_report test_report doc_report none)
          else
            let bridge_report :=
              if env.config.check_bridge_contracts then env.bridge_report else none
            if env.timeoutAt = .duringAggregation then
              finalize_result env true
                (timeout_result env drift_report test_report doc_report bridge_report)
            else
              let aggregated_result : ValidationResult σ :=
                aggregate_validation_results true drift_report test_report
                  doc_report bridge_report (some validation_context)
              if env.timeoutAt = .duringSuggestions then
                finalize_result env true
                  (timeout_result env drift_report test_report doc_report bridge_report)
              else
                let payload :=
                  env.genSuggestions drift_report test_report doc_report bridge_report
                let aggregated_result :=
                  if !aggregated_result.success then
                    { aggregated_result with suggestions := some payload }
                  else { aggregated_result with suggestions := none }
                let aggregated_result := { aggregated_result with
                  drift_report := drift_report
                  test_report := test_report
                  doc_report := doc_report
                  bridge_report := bridge_report }
                finalize_result env false aggregated_result

/-! ### `SuggestionGenerator` regex helpers

`re.search` scans start positions left to right; at each start the greedy
quantifiers try the longest candidate first.  Each helper below implements
one of the fixed search patterns of the source. -/

/-- One attempt of `re.search(r'(GET|POST|PUT|DELETE|PATCH)\s+(/[^\s]+)', s)`
anchored at the head of `cs`: an HTTP method literal, at least one whitespace
character, then `/` and one or more non-whitespace characters.  Backtracking
over the greedy `\s+` reduces to taking the maximal whitespace run (shorter
splits leave a whitespace where `/` is required). -/
def tryMethodPathAt (cs : List Char) : Option (String × String) :=
  match ["GET", "POST", "PUT", "DELETE", "PATCH"].find?
      (fun m => m.data.isPrefixOf cs) with
  | none => none
  | some m =>
    let after := cs.drop m.length
    let ws := after.takeWhile pyIsSpace
    if ws.isEmpty then none
    else
      match after.drop ws.length with
      | '/' :: rest =>
        let body := rest.takeWhile fun c => !pyIsSpace c
        if body.isEmpty then none else some (m, String.mk ('/' :: body))
      | _ => none

def searchMethodPathAux : Nat → List Char → Option (String × String)
  | 0, _ => none
  | _ + 1, [] => none
  | fuel + 1, cs@(_ :: rest) =>
    match tryMethodPathAt cs with
    | some r => some r
    | none => searchMethodPathAux fuel rest

/-- `re.search(r'(GET|POST|PUT|DELETE|PATCH)\s+(/[^\s]+)', s)`, returning the
two captured groups (method, path) of the leftmost match. -/
def searchMethodPath (s : String) : Option (String × String) :=
  searchMethodPathAux s.data.length s.data

/-- One attempt of `re.search(r"model '([^']+)'", s, re.IGNORECASE)` anchored
at the head of `cs`: the literal `model '` case-insensitively, then one or
more non-apostrophe characters (captured with original case), then `'`. -/
def tryModelNameAt (cs : List Char) : Option String :=
  if (cs.take 7).map Char.toLower = "model \x27".data then
    let rest := cs.drop 7
    let body := rest.takeWhile (· ≠ '\x27')
    if body.isEmpty then none
    else
      match rest.drop body.length with
      | '\x27' :: _ => some (String.mk body)
      | _ => none
  else none

def searchModelNameAux : Nat → List Char → Option String
  | 0, _ => none
  | _ + 1, [] => none
  | fuel + 1, cs@(_ :: rest) =>
    match tryModelNameAt cs with
    | some r => some r
    | none => searchModelNameAux fuel rest

/-- `re.search(r"model '([^']+)'", s, re.IGNORECASE)`, returning group 1. -/
def searchModelName (s : String) : Option String :=
  searchModelNameAux s.data.length s.data

/-- One attempt of `re.search(prefix ++ '[^\s]+\.' ++ ext, s)` (used with
`tests/...py` and `docs/...md`) anchored at the head of `cs`, returning the
whole match (`group(0)`).  The greedy `[^\s]+` backtracks from the maximal
non-whitespace run to the largest `k ≥ 1` whose next three characters are the
literal dot-extension. -/
def tryPathTokenAt (pre : List Char) (ext : List Char) (cs : List Char) :
    Option String :=
  if pre.isPrefixOf cs then
    let rest := cs.drop pre.length
    let run := rest.takeWhile fun c => !pyIsSpace c
    (((List.range (run.length + 1)).reverse).findSome? fun k =>
      if k = 0 then none
      else if ext.isPrefixOf (rest.drop k) then
        some (String.mk (pre ++ rest.take k ++ ext))
      else none)
  else none

def searchPathTokenAux (pre ext : List Char) : Nat → List Char → Option String
  | 0, _ => none
  | _ + 1, [] => none
  | fuel + 1, cs@(_ :: rest) =>
    match tryPathTokenAt pre ext cs with
    | some r => some r
    | none => searchPathTokenAux pre ext fuel rest

/-- `SuggestionGenerator._extract_test_file_from_suggestion`:
`re.search(r'tests/[^\s]+\.py', suggestion)`. -/
def extract_test_file_from_suggestion (suggestion : String) : Option String :=
  searchPathTokenAux "tests/".data ".py".data suggestion.data.length suggestion.data

/-- `SuggestionGenerator._extract_doc_file_from_suggestion`:
`re.search(r'docs/[^\s]+\.md', suggestion)`. -/
def extract_doc_file_from_suggestion (suggestion : String) : Option String :=
  searchPathTokenAux "docs/".data ".md".data suggestion.data.length suggestion.data

/-- One attempt of `re.search(r'lack test coverage: (.+)$', s)` anchored at
the head of `cs`: the literal, then one or more non-newline characters
running to the end of the string (or to a single final newline). -/
def tryLackCoverageAt (cs : List Char) : Option String :=
  if "lack test coverage: ".data.isPrefixOf cs then
    let rest := cs.drop 20
    let body := rest.takeWhile (· ≠ '\n')
    if body.isEmpty then none
    else
      match rest.drop body.length with
      | [] => some (String.mk body)
      | ['\n'] => some (String.mk body)
      | _ => none
  else none

def searchLackCoverageAux : Nat → List Char → Option String
  | 0, _ => none
  | _ + 1, [] => none
  | fuel + 1, cs@(_ :: rest) =>
    match tryLackCoverageAt cs with
    | some r => some r
    | none => searchLackCoverageAux fuel rest

/-- `re.search(r'lack test coverage: (.+)$', description)`, group 1. -/
def searchLackCoverage (s : String) : Option String :=
  searchLackCoverageAux s.data.length s.data

/-- Split a character list on `/` (the accumulator holds the current segment
reversed). -/
def splitSlashAux : List Char → List Char → List (List Char)
  | [], cur => [cur.reverse]
  | '/' :: rest, cur => cur.reverse :: splitSlashAux rest []
  | c :: rest, cur => splitSlashAux rest (c :: cur)

/-- `pathlib.Path(p).stem`: the final path component (empty and `.` segments
dropped, as pathlib normalizes them) without its suffix; the suffix is
`name[i:]` for the last dot index `i` with `0 < i < len(name) - 1`. -/
def pathStem (p : String) : String :=
  let parts := splitSlashAux p.data []
  let name := ((parts.filter fun seg => seg ≠ [] ∧ seg ≠ ['.']).getLast?).getD []
  match ((List.range name.length).reverse).find? (fun i => name.getD i ' ' = '.') with
  | some i =>
    if 0 < i ∧ i < name.length - 1 then String.mk (name.take i) else String.mk name
  | none => String.mk name

/-- Python `str(x)` of an `Optional[str]` as an f-string renders `None`. -/
def strOfOpt (o : Option String) : String :=
  match o with
  | some s => s
  | none => "None"

/-! ### `SuggestionGenerator` action helpers -/

/-- `SuggestionGenerator._generate_endpoint_spec_action`. -/
def generate_endpoint_spec_action (description : String) : String :=
  match searchMethodPath description with
  | some (method, path) =>
    "Add endpoint definition to spec:\n  - path: \"" ++ path ++
      "\"\n    method: \"" ++ method ++
      "\"\n    description: \"[Add description]\"\n    response:\n      type: \"[Add type]\""
  | none =>
    "Add the endpoint definition to the spec file with path, method, description, and response schema"

/-- `SuggestionGenerator._generate_model_spec_action`. -/
def generate_model_spec_action (description : String) : String :=
  match searchModelName description with
  | some model_name =>
    "Add model definition to spec:\n  " ++ model_name ++
      ":\n    fields:\n      - name: \"[field_name]\"\n        type: \"[field_type]\""
  | none =>
    "Add the model definition to the spec file with all fields and their types"

/-- `SuggestionGenerator._generate_missing_endpoint_action`. -/
def generate_missing_endpoint_action (description : String) : String :=
  match searchMethodPath description with
  | some (method, path) =>
    "Either:\n  1. Implement the " ++ method ++ " " ++ path ++
      " endpoint in code, OR\n  2. Remove the endpoint definition from the spec if it\x27s no longer needed"
  | none => "Either implement the endpoint in code or remove it from the spec"

/-- `SuggestionGenerator._generate_missing_model_action`. -/
def generate_missing_model_action (description : String) : String :=
  match searchModelName description with
  | some model_name =>
    "Either:\n  1. Implement the " ++ model_name ++
      " model in code, OR\n  2. Remove the model definition from the spec if it\x27s no longer needed"
  | none => "Either implement the model in code or remove it from the spec"

/-- `SuggestionGenerator._generate_field_alignment_action`. -/
def generate_field_alignment_action (description : String) : String :=
  if containsSub (lowerStr description) "missing fields" then
    "Add the missing fields to the model implementation in code, or remove them from the spec if they\x27re not needed"
  else if containsSub (lowerStr description) "extra fields" then
    "Either add the extra fields to the spec, or remove them from the code implementation"
  else "Align the model fields between spec and code"

/-- `SuggestionGenerator._generate_test_coverage_action`. -/
def generate_test_coverage_action (description suggestion : String) : String :=
  match searchLackCoverage description with
  | some functions =>
    match extract_test_file_from_suggestion suggestion with
    | some test_file => "Add test functions to " ++ test_file ++ " to cover: " ++ functions
    | none => "Add test functions to cover: " ++ functions
  | none => pyOr suggestion "Add tests for untested functions"

/-- `SuggestionGenerator._generate_spec_required_test_action`. -/
def generate_spec_required_test_action (description : String) : String :=
  match searchMethodPath description with
  | some (method, path) =>
    "Add test for " ++ method ++ " " ++ path ++ " endpoint as required by spec"
  | none => "Add tests as required by spec"

/-- `SuggestionGenerator._generate_endpoint_doc_action`. -/
def generate_endpoint_doc_action (description suggestion : String) : String :=
  match searchMethodPath description, extract_doc_file_from_suggestion suggestion with
  | some (method, path), some doc_file =>
    "Add documentation for " ++ method ++ " " ++ path ++ " to " ++ doc_file ++
      " including:\n  - Description\n  - Request format\n  - Response format\n  - Example"
  | _, _ => pyOr suggestion "Add endpoint documentation"

/-- `SuggestionGenerator._generate_doc_removal_action`. -/
def generate_doc_removal_action (description suggestion : String) : String :=
  match searchMethodPath description with
  | some (method, path) =>
    "Remove documentation for " ++ method ++ " " ++ path ++
      " or implement the endpoint if it should exist"
  | none => pyOr suggestion "Remove or update outdated documentation"

/-- `SuggestionGenerator._generate_outdated_doc_action`. -/
def generate_outdated_doc_action (_description suggestion : String) : String :=
  pyOr suggestion "Remove documentation for removed functionality"

/-- `self.spec_path or '.kiro/specs/app.yaml'`. -/
def specPathOr (spec_path : Option String) : String :=
  pyOrOpt spec_path ".kiro/specs/app.yaml"

/-! ### `SuggestionGenerator` generators

Each `generate_*_suggestions` method is a for-loop appending zero or more
suggestions per issue; the loop body is factored into a per-issue function.
Every issue field is read through `dict.get` with the shown defaults. -/

/-- Loop body of `SuggestionGenerator.generate_spec_update_suggestions`. -/
def spec_suggestions_for (spec_path : Option String) (issue : Issue) :
    List Suggestion :=
  let description := issue.description.getD ""
  let file := issue.file.getD ""
  if containsSub description "not defined in spec" ||
      containsSub description "not in spec" then
    if containsSub (lowerStr description) "endpoint" then
      [{ type := "spec", priority := 10, file := specPathOr spec_path
         description := "Add endpoint definition to spec"
         action := generate_endpoint_spec_action description
         rationale := "Code implements endpoint not defined in spec: " ++ description }]
    else if containsSub (lowerStr description) "model" then
      [{ type := "spec", priority := 10, file := specPathOr spec_path
         description := "Add model definition to spec"
         action := generate_model_spec_action description
         rationale := "Code implements model not defined in spec: " ++ description }]
    else []
  else if containsSub description "not found in code" ||
      containsSub description "missing from code" then
    if containsSub (lowerStr description) "endpoint" then
      [{ type := "spec", priority := 9, file := file
         description := "Implement missing endpoint or remove from spec"
         action := generate_missing_endpoint_action description
         rationale := "Spec defines endpoint not implemented in code: " ++ description }]
    else if containsSub (lowerStr description) "model" then
      [{ type := "spec", priority := 9, file := file
         description := "Implement missing model or remove from spec"
         action := generate_missing_model_action description
         rationale := "Spec defines model not implemented in code: " ++ description }]
    else []
  else if containsSub description "missing fields" ||
      containsSub description "extra fields" then
    [{ type := "spec", priority := 8, file := specPathOr spec_path
       description := "Align model fields between spec and code"
       action := generate_field_alignment_action description
       rationale := "Model fields don\x27t match between spec and code: " ++ description }]
  else []

/-- `SuggestionGenerator.generate_spec_update_suggestions`. -/
def generate_spec_update_suggestions (spec_path : Option String)
    (drift_issues : List Issue) : List Suggestion :=
  drift_issues.foldl (fun suggestions issue =>
    suggestions ++ spec_suggestions_for spec_path issue) []

/-- Loop body of `SuggestionGenerator.generate_test_addition_suggestions`. -/
def test_suggestions_for (issue : Issue) : List Suggestion :=
  let description := issue.description.getD ""
  let file := issue.file.getD ""
  let suggestion_text := issue.suggestion.getD ""
  if issue.type = some "missing_tests" then
    let module_name := pathStem file
    let test_file := "tests/unit/test_" ++ module_name ++ ".py"
    [{ type := "test", priority := 7, file := test_file
       description := "Create test file for " ++ file
       action := "Create " ++ test_file ++ " with tests for all public functions in " ++ file
       rationale := "Code file has no corresponding test file: " ++ description }]
  else if issue.type = some "insufficient_coverage" then
    let test_file := extract_test_file_from_suggestion suggestion_text
    if containsSub (lowerStr description) "no test functions" then
      [{ type := "test", priority := 8, file := pyOrOpt test_file file
         description := "Add test functions to empty test file"
         action := "Add test functions to " ++ strOfOpt test_file ++
           " to cover functionality in " ++ file
         rationale := "Test file exists but contains no tests: " ++ description }]
    else
      [{ type := "test", priority := 6, file := pyOrOpt test_file file
         description := "Add tests for untested functions"
         action := generate_test_coverage_action description suggestion_text
         rationale := "Some functions lack test coverage: " ++ description }]
  else if issue.type = some "misalignment" then
    if containsSub description "no corresponding code file" then
      [{ type := "test", priority := 5, file := file
         description := "Fix test file naming or create corresponding code"
         action := "Rename test file to match code file naming conventions or create the missing code file"
         rationale := "Test file has no corresponding code file: " ++ description }]
    else if containsSub description "don\x27t exist" ||
        containsSub description "non-existent" then
      [{ type := "test", priority := 7, file := file
         description := "Update tests to match current code"
         action := "Remove or update tests that reference non-existent functions"
         rationale := "Tests reference functions that don\x27t exist: " ++ description }]
    else if containsSub description "spec requires tests" then
      [{ type := "test", priority := 8, file := file
         description := "Add tests required by spec"
         action := generate_spec_required_test_action description
         rationale := "Spec requires tests that are missing: " ++ description }]
    else []
  else []

/-- `SuggestionGenerator.generate_test_addition_suggestions`. -/
def generate_test_addition_suggestions (test_issues : List Issue) :
    List Suggestion :=
  test_issues.foldl (fun suggestions issue =>
    suggestions ++ test_suggestions_for issue) []

/-- Loop body of
`SuggestionGenerator.generate_documentation_update_suggestions`. -/
def doc_suggestions_for (issue : Issue) : List Suggestion :=
  let description := issue.description.getD ""
  let file := issue.file.getD ""
  let suggestion_text := issue.suggestion.getD ""
  if issue.type = some "missing_docs" then
    if containsSub (lowerStr description) "endpoint" then
      let doc_file := pyOrOpt (extract_doc_file_from_suggestion suggestion_text) "docs/api/"
      [{ type := "doc", priority := 5, file := doc_file
         description := "Document API endpoint"
         action := generate_endpoint_doc_action description suggestion_text
         rationale := "API endpoint lacks documentation: " ++ description }]
    else if containsSub (lowerStr description) "handler file" then
      [{ type := "doc", priority := 6, file := file
         description := "Create API documentation for handler"
         action := "Create documentation file for endpoints in " ++ file
         rationale := "Handler file has no documentation: " ++ description }]
    else []
  else if issue.type = some "doc_code_mismatch" then
    if containsSub description "not found in" then
      [{ type := "doc", priority := 6, file := file
         description := "Remove or update outdated documentation"
         action := generate_doc_removal_action description suggestion_text
         rationale := "Documentation describes non-existent functionality: " ++ description }]
    else []
  else if issue.type = some "outdated_docs" then
    [{ type := "doc", priority := 5, file := file
       description := "Remove documentation for removed features"
       action := generate_outdated_doc_action description suggestion_text
       rationale := "Documentation describes removed functionality: " ++ description }]
  else []

/-- `SuggestionGenerator.generate_documentation_update_suggestions`. -/
def generate_documentation_update_suggestions (doc_issues : List Issue) :
    List Suggestion :=
  doc_issues.foldl (fun suggestions issue =>
    suggestions ++ doc_suggestions_for issue) []

/-! ### `SuggestionPrioritizer` -/

/-- `SuggestionPrioritizer.TYPE_PRIORITIES` with its `.get(type, 5)`. -/
def TYPE_PRIORITIES : List (String × Int) :=
  [("spec", 10), ("test", 7), ("doc", 5)]

def typePriorityOf (t : String) : Int :=
  (TYPE_PRIORITIES.lookup t).getD 5

/-- `SuggestionPrioritizer.assign_impact_scores`: each suggestion's priority
becomes base + severity boost (first matching keyword tier) + file boost.
The `type_weight` local of the source is computed but never used in the new
priority, and is therefore not represented. -/
def assign_impact_scores (suggestions : List Suggestion) : List Suggestion :=
  suggestions.map fun s =>
    let base_priority := s.priority
    let description_lower := lowerStr s.description
    let severity_boost : Int :=
      if containsSub description_lower "critical" ||
          containsSub description_lower "breaking" ||
          containsSub description_lower "error" then 3
      else if containsSub description_lower "missing" ||
          containsSub description_lower "required" ||
          containsSub description_lower "must" then 2
      else if containsSub description_lower "should" ||
          containsSub description_lower "recommended" then 1
      else 0
    let file_boost : Int :=
      if containsSub s.file "main.py" || containsSub s.file "models.py" then 1
      else 0
    { s with priority := base_priority + severity_boost + file_boost }

/-- Python string comparison (lexicographic by code point). -/
def charListLt : List Char → List Char → Bool
  | [], [] => false
  | [], _ :: _ => true
  | _ :: _, [] => false
  | a :: as, b :: bs =>
    if a.toNat < b.toNat then true
    else if b.toNat < a.toNat then false
    else charListLt as bs

/-- The sort key of `order_suggestions_by_impact`:
`(-type_priority, -priority, file)`. -/
def sort_key (s : Suggestion) : Int × Int × String :=
  (-(typePriorityOf s.type), -s.priority, s.file)

/-- Python tuple `<` on the sort keys (lexicographic; the third component is
Python's string comparison). -/
def keyLt (a b : Int × Int × String) : Bool :=
  if a.1 < b.1 then true
  else if b.1 < a.1 then false
  else if a.2.1 < b.2.1 then true
  else if b.2.1 < a.2.1 then false
  else charListLt a.2.2.data b.2.2.data

/-- Strict key comparison between suggestions. -/
def suggLt (a b : Suggestion) : Bool :=
  keyLt (sort_key a) (sort_key b)

/-- Stable insertion into a sorted list: `x` goes before the first element
not strictly below it, so elements with equal keys keep their input order,
as Python's stable `sorted` guarantees. -/
def insertSorted (x : Suggestion) : List Suggestion → List Suggestion
  | [] => [x]
  | y :: ys => if suggLt y x then y :: insertSorted x ys else x :: y :: ys

/-- Stable sort by `sort_key` (extensionally Python's stable
`sorted(suggestions, key=sort_key)`). -/
def sortSuggestions : List Suggestion → List Suggestion
  | [] => []
  | x :: xs => insertSorted x (sortSuggestions xs)

/-- `SuggestionPrioritizer.order_suggestions_by_impact`: assign impact scores,
then sort by `(-type_priority, -priority, file)`. -/
def order_suggestions_by_impact (suggestions : List Suggestion) :
    List Suggestion :=
  sortSuggestions (assign_impact_scores suggestions)

/-! ### Partial-report characterization of a timed-out run

Which checker reports have been assigned when the alarm fires at each
`TimeoutPoint` (the report local variables of `validate` are initialized to
`None` before the checker sequence starts). -/

def partial_drift_report {σ : Type} (env : Env σ) : Option Report :=
  match env.timeoutAt with
  | .noTimeout | .duringSetup | .duringDrift => none
  | _ => if env.config.check_spec_alignment then env.drift_report else none

def partial_test_report {σ : Type} (env : Env σ) : Option Report :=
  match env.timeoutAt with
  | .noTimeout | .duringSetup | .duringDrift | .duringTest => none
  | _ => if env.config.check_test_coverage then env.test_report else none

def partial_doc_report {σ : Type} (env : Env σ) : Option Report :=
  match env.timeoutAt with
  | .noTimeout | .duringSetup | .duringDrift | .duringTest | .duringDoc => none
  | _ => if env.config.check_documentation then env.doc_report else none

def partial_bridge_report {σ : Type} (env : Env σ) : Option Report :=
  match env.timeoutAt with
  | .duringAggregation | .duringSuggestions =>
    if env.config.check_bridge_contracts then env.bridge_report else none
  | _ => none

/-! ### Concrete sample data for witnesses and counterexamples -/

/-- A drift issue on file `x.py`. -/
def cex_issue : Issue :=
  { type := some "spec", description := some "d", file := some "x.py" }

/-- The conflict `detect_rule_drift_conflicts` emits for `cex_issue`. -/
def cex_conflict : Conflict := mk_drift_conflict cex_issue

/-- A passing validation result. -/
def sample_result_true : ValidationResult Unit :=
  { success := true, message := "ok", allowCommit := true }

/-- A drift report carrying the same issue twice on the same file. -/
def c8_report : Report :=
  { aligned := false, total_issues := 2
    issues_by_file := [("x.py", [cex_issue, cex_issue])] }

/-- A context in which `x.py` was staged but filtered out as ignored. -/
def c8_context : ValidationContext :=
  { branch := "main", staged_files := ["x.py"], diff := ""
    all_staged_files := ["x.py"], filtered_files := [] }

/-- The aggregate of the duplicated-issue drift report under `c8_context`. -/
def c8_aggregate : ValidationResult Unit :=
  aggregate_validation_results true (some c8_report) none none none (some c8_context)

/-- An environment whose staging digest changes during a run with no staged
files (and no timeout). -/
def env_mismatch_empty : Env Unit :=
  { stagingBefore := "a", stagingAfter := "b", rules := {}, config := {}
    drift_report := none, test_report := none, doc_report := none
    bridge_report := none, timeoutAt := .noTimeout
    genSuggestions := fun _ _ _ _ => () }

/-- An environment whose staging digest changes during a run with one staged
file (and no timeout). -/
def env_mismatch_files : Env Unit :=
  { stagingBefore := "a", stagingAfter := "b", rules := {}, config := {}
    drift_report := none, test_report := none, doc_report := none
    bridge_report := none, timeoutAt := .noTimeout
    genSuggestions := fun _ _ _ _ => () }

/-- An environment in which the alarm fires during the test-coverage stage,
after a drift report with one issue was computed. -/
def env_timeout_test : Env Unit :=
  { stagingBefore := "s", stagingAfter := "s", rules := {}, config := {}
    drift_report := some { aligned := false, total_issues := 1 }
    test_report := none, doc_report := none, bridge_report := none
    timeoutAt := .duringTest, genSuggestions := fun _ _ _ _ => () }

/-- A git context with no staged files. -/
def git_empty : GitContext := {}

/-- A git context with one staged file. -/
def git_one : GitContext := { stagedFiles := some ["a.py"] }

/-- A spec suggestion with (boost-free) adjusted priority 8. -/
def sugg_spec8 : Suggestion :=
  { type := "spec", priority := 8, file := "a.py", description := "x"
    action := "", rationale := "" }

/-- A test suggestion with (boost-free) adjusted priority 12. -/
def sugg_test12 : Suggestion :=
  { type := "test", priority := 12, file := "b.py", description := "y"
    action := "", rationale := "" }

/-- Two test suggestions with equal type and equal adjusted priority,
differing only in file path. -/
def sugg_test5a : Suggestion :=
  { type := "test", priority := 5, file := "a.py", description := "y"
    action := "", rationale := "" }

def sugg_test5b : Suggestion :=
  { type := "test", priority := 5, file := "b.py", description := "y"
    action := "", rationale := "" }

/-- The sortedness relation of the output: no later element is strictly below
an earlier one. -/
def SuggSortedRel (a b : Suggestion) : Prop := suggLt b a = false

/-! ### Helper lemmas: the sort key is a strict linear order -/

theorem charListLt_nil_cons (b : Char) (bs : List Char) :
    charListLt [] (b :: bs) = true := rfl

theorem charListLt_cons_eq (a b : Char) (as bs : List Char) :
    charListLt (a :: as) (b :: bs) =
      (if a.toNat < b.toNat then true
       else if b.toNat < a.toNat then false
       else charListLt as bs) := rfl

theorem charListLt_cons_iff (a b : Char) (as bs : List Char) :
    charListLt (a :: as) (b :: bs) = true ↔
      a.toNat < b.toNat ∨ (a.toNat = b.toNat ∧ charListLt as bs = true) := by
  rw [charListLt_cons_eq]
  by_cases h1 : a.toNat < b.toNat
  · rw [if_pos h1]
    simp [h1]
  · rw [if_neg h1]
    by_cases h2 : b.toNat < a.toNat
    · rw [if_pos h2]
      constructor
      · intro h; exact absurd h (by simp)
      · rintro (h | ⟨h, -⟩) <;> omega
    · rw [if_neg h2]
      have he : a.toNat = b.toNat := by omega
      constructor
      · intro h; exact Or.inr ⟨he, h⟩
      · rintro (h | ⟨-, h⟩)
        · omega
        · exact h

theorem charListLt_irrefl : ∀ a : List Char, charListLt a a = false
  | [] => rfl
  | a :: as => by
    cases h : charListLt (a :: as) (a :: as)
    · rfl
    · rw [charListLt_cons_iff] at h
      rcases h with h | ⟨-, h⟩
      · omega
      · rw [charListLt_irrefl as] at h
        exact absurd h (by simp)

theorem charListLt_trans : ∀ a b c : List Char,
    charListLt a b = true → charListLt b c = true → charListLt a c = true
  | [], [], _, h1, _ => by simp [charListLt] at h1
  | [], _ :: _, [], _, h2 => by simp [charListLt] at h2
  | [], _ :: _, _ :: _, _, _ => rfl
  | _ :: _, [], _, h1, _ => by simp [charListLt] at h1
  | _ :: _, _ :: _, [], _, h2 => by simp [charListLt] at h2
  | a :: as, b :: bs, c :: cs, h1, h2 => by
    rw [charListLt_cons_iff] at h1 h2 ⊢
    rcases h1 with h1 | ⟨e1, h1⟩ <;> rcases h2 with h2 | ⟨e2, h2⟩
    · left; omega
    · left; omega
    · left; omega
    · exact Or.inr ⟨by omega, charListLt_trans as bs cs h1 h2⟩

theorem charListLt_trichotomy : ∀ a b : List Char,
    charListLt a b = true ∨ a = b ∨ charListLt b a = true
  | [], [] => Or.inr (Or.inl rfl)
  | [], _ :: _ => Or.inl rfl
  | _ :: _, [] => Or.inr (Or.inr rfl)
  | a :: as, b :: bs => by
    rcases Nat.lt_trichotomy a.toNat b.toNat with h | h | h
    · left; rw [charListLt_cons_iff]; exact Or.inl h
    · have hab : a = b := Char.ext (UInt32.ext h)
      subst hab
      rcases charListLt_trichotomy as bs with h2 | h2 | h2
      · left; rw [charListLt_cons_iff]; exact Or.inr ⟨rfl, h2⟩
      · exact Or.inr (Or.inl (by rw [h2]))
      · right; right; rw [charListLt_cons_iff]; exact Or.inr ⟨rfl, h2⟩
    · right; right; rw [charListLt_cons_iff]; exact Or.inl h

theorem keyLt_iff (a b : Int × Int × String) :
    keyLt a b = true ↔
      a.1 < b.1 ∨ (a.1 = b.1 ∧
        (a.2.1 < b.2.1 ∨ (a.2.1 = b.2.1 ∧ charListLt a.2.2.data b.2.2.data = true))) := by
  unfold keyLt
  by_cases h1 : a.1 < b.1
  · simp [h1]
  · by_cases h2 : b.1 < a.1
    · simp only [if_neg h1, if_pos h2]
      constructor
      · intro h; exact absurd h (by simp)
      · rintro (h | ⟨h, _⟩) <;> omega
    · have e1 : a.1 = b.1 := le_antisymm (not_lt.mp h2) (not_lt.mp h1)
      by_cases h3 : a.2.1 < b.2.1
      · simp [h1, h2, h3, e1]
      · by_cases h4 : b.2.1 < a.2.1
        · simp only [if_neg h1, if_neg h2, if_neg h3, if_pos h4]
          constructor
          · intro h; exact absurd h (by simp)
          · rintro (h | ⟨-, h | ⟨h, _⟩⟩) <;> omega
        · have e2 : a.2.1 = b.2.1 := le_antisymm (not_lt.mp h4) (not_lt.mp h3)
          simp [h1, h2, h3, h4, e1, e2]

theorem keyLt_trans (a b c : Int × Int × String) (h1 : keyLt a b = true)
    (h2 : keyLt b c = true) : keyLt a c = true := by
  rw [keyLt_iff] at h1 h2 ⊢
  rcases h1 with h1 | ⟨e1, h1⟩ <;> rcases h2 with h2 | ⟨e2, h2⟩
  · left; omega
  · left; omega
  · left; omega
  · refine Or.inr ⟨by omega, ?_⟩
    rcases h1 with h1 | ⟨f1, hc1⟩ <;> rcases h2 with h2 | ⟨f2, hc2⟩
    · left; omega
    · left; omega
    · left; omega
    · exact Or.inr ⟨by omega, charListLt_trans _ _ _ hc1 hc2⟩

theorem keyLt_irrefl (a : Int × Int × String) : keyLt a a = false := by
  cases h : keyLt a a
  · rfl
  · rw [keyLt_iff] at h
    rcases h with h | ⟨-, h | ⟨-, h⟩⟩
    · omega
    · omega
    · rw [charListLt_irrefl] at h; exact absurd h (by simp)

theorem keyLt_asymm (a b : Int × Int × String) (h : keyLt a b = true) :
    keyLt b a = false := by
  cases hx : keyLt b a
  · rfl
  · have := keyLt_trans a b a h hx
    rw [keyLt_irrefl] at this
    exact absurd this (by simp)

theorem keyLt_trichotomy (a b : Int × Int × String) :
    keyLt a b = true ∨ a = b ∨ keyLt b a = true := by
  obtain ⟨a1, a2, a3⟩ := a
  obtain ⟨b1, b2, b3⟩ := b
  rcases lt_trichotomy a1 b1 with h1 | h1 | h1
  · left; rw [keyLt_iff]; exact Or.inl h1
  · subst h1
    rcases lt_trichotomy a2 b2 with h2 | h2 | h2
    · left; rw [keyLt_iff]; exact Or.inr ⟨rfl, Or.inl h2⟩
    · subst h2
      rcases charListLt_trichotomy a3.data b3.data with h3 | h3 | h3
      · left; rw [keyLt_iff]; exact Or.inr ⟨rfl, Or.inr ⟨rfl, h3⟩⟩
      · exact Or.inr (Or.inl (by rw [String.ext h3]))
      · right; right; rw [keyLt_iff]; exact Or.inr ⟨rfl, Or.inr ⟨rfl, h3⟩⟩
    · right; right; rw [keyLt_iff]; exact Or.inr ⟨rfl, Or.inl h2⟩
  · right; right; rw [keyLt_iff]; exact Or.inl h1

theorem keyLt_of_lt_of_not_lt (a b c : Int × Int × String)
    (h1 : keyLt c a = true) (h2 : keyLt b a = false) : keyLt c b = true := by
  rcases keyLt_trichotomy c b with h3 | h3 | h3
  · exact h3
  · subst h3; rw [h1] at h2; exact absurd h2 (by simp)
  · have := keyLt_trans b c a h3 h1
    rw [this] at h2
    exact absurd h2 (by simp)

theorem suggLt_asymm (a b : Suggestion) (h : suggLt a b = true) :
    suggLt b a = false :=
  keyLt_asymm _ _ h

theorem suggLt_of_lt_of_not_lt (a b c : Suggestion)
    (h1 : suggLt c a = true) (h2 : suggLt b a = false) : suggLt c b = true :=
  keyLt_of_lt_of_not_lt _ _ _ h1 h2

/-! ### Helper lemmas: the stable insertion sort -/

theorem insertSorted_perm (x : Suggestion) :
    ∀ l : List Suggestion, List.Perm (insertSorted x l) (x :: l)
  | [] => List.Perm.refl _
  | y :: ys => by
    unfold insertSorted
    by_cases h : suggLt y x = true
    · rw [if_pos h]
      exact ((insertSorted_perm x ys).cons y).trans (List.Perm.swap x y ys)
    · rw [if_neg h]

theorem sortSuggestions_perm :
    ∀ l : List Suggestion, List.Perm (sortSuggestions l) l
  | [] => List.Perm.refl _
  | x :: xs =>
    (insertSorted_perm x (sortSuggestions xs)).trans
      ((sortSuggestions_perm xs).cons x)

theorem insertSorted_pairwise (x : Suggestion) :
    ∀ l : List Suggestion, l.Pairwise SuggSortedRel →
      (insertSorted x l).Pairwise SuggSortedRel
  | [], _ => List.Pairwise.cons (by simp) List.Pairwise.nil
  | y :: ys, h => by
    unfold insertSorted
    rcases List.pairwise_cons.mp h with ⟨hy, hys⟩
    by_cases hlt : suggLt y x = true
    · rw [if_pos hlt]
      refine List.pairwise_cons.mpr ⟨?_, insertSorted_pairwise x ys hys⟩
      intro z hz
      rcases List.mem_cons.mp ((insertSorted_perm x ys).mem_iff.mp hz) with hz2 | hz2
      · subst hz2
        exact suggLt_asymm _ _ hlt
      · exact hy z hz2
    · rw [if_neg hlt]
      refine List.pairwise_cons.mpr ⟨?_, h⟩
      intro z hz
      rcases List.mem_cons.mp hz with hz | hz
      · subst hz
        exact eq_false_of_ne_true hlt
      · show suggLt z x = false
        cases hzx : suggLt z x
        · rfl
        · have hzy : suggLt z y = true :=
            suggLt_of_lt_of_not_lt x y z hzx (eq_false_of_ne_true hlt)
          rw [hy z hz] at hzy
          exact absurd hzy (by simp)

theorem sortSuggestions_pairwise :
    ∀ l : List Suggestion, (sortSuggestions l).Pairwise SuggSortedRel
  | [] => List.Pairwise.nil
  | x :: xs => insertSorted_pairwise x (sortSuggestions xs) (sortSuggestions_pairwise xs)

/-! ### Helper lemmas: the generator loops process issues independently -/

theorem foldl_append_eq_flatten {α β : Type} (f : α → List β) :
    ∀ (l : List α) (acc : List β),
      l.foldl (fun acc i => acc ++ f i) acc = acc ++ (l.map f).flatten
  | [], acc => by simp
  | i :: is, acc => by
    rw [List.foldl_cons, foldl_append_eq_flatten f is (acc ++ f i)]
    simp

/-! ### Helper lemmas: the orchestrator tail -/

theorem finalize_result_reports {σ : Type} (env : Env σ) (t : Bool)
    (r : ValidationResult σ) :
    (finalize_result env t r).drift_report = r.drift_report ∧
    (finalize_result env t r).test_report = r.test_report ∧
    (finalize_result env t r).doc_report = r.doc_report ∧
    (finalize_result env t r).bridge_report = r.bridge_report ∧
    (finalize_result env t r).suggestions = r.suggestions ∧
    (finalize_result env t r).timed_out = t ∧
    (finalize_result env t r).partial_results = some t := by
  unfold finalize_result
  split <;> simp

theorem finalize_result_of_eq {σ : Type} (env : Env σ) (t : Bool)
    (r : ValidationResult σ) (h : env.stagingBefore = env.stagingAfter) :
    (finalize_result env t r).success = r.success ∧
    (finalize_result env t r).allowCommit = r.allowCommit ∧
    (finalize_result env t r).message = r.message ∧
    (finalize_result env t r).staging_area_preserved = true := by
  unfold finalize_result
  rw [if_pos h]
  simp

theorem finalize_result_of_ne {σ : Type} (env : Env σ) (t : Bool)
    (r : ValidationResult σ) (h : env.stagingBefore ≠ env.stagingAfter) :
    (finalize_result env t r).success = false ∧
    (finalize_result env t r).allowCommit = false ∧
    (finalize_result env t r).message = "CRITICAL ERROR: " ++ staging_error_message ∧
    (finalize_result env t r).staging_area_preserved = false := by
  unfold finalize_result
  rw [if_neg h]
  simp

theorem validate_early_eq {σ : Type} (env : Env σ) (git : GitContext)
    (h1 : env.timeoutAt ≠ .duringSetup)
    (h2 : filter_ignored_files env.rules.ignore_patterns (git.stagedFiles.getD []) = []) :
    validate env git = no_files_result env := by
  simp only [validate, apply_steering_rules]
  rw [if_neg h1]
  simp [h2]

theorem validate_timeout_eq {σ : Type} (env : Env σ) (git : GitContext)
    (htp : env.timeoutAt ≠ .noTimeout)
    (hpath : env.timeoutAt = .duringSetup ∨
      filter_ignored_files env.rules.ignore_patterns (git.stagedFiles.getD []) ≠ []) :
    validate env git = finalize_result env true (timeout_result env
      (partial_drift_report env) (partial_test_report env)
      (partial_doc_report env) (partial_bridge_report env)) := by
  cases h : env.timeoutAt with
  | noTimeout => exact absurd h htp
  | duringSetup =>
    simp [validate, apply_steering_rules, h, partial_drift_report,
      partial_test_report, partial_doc_report, partial_bridge_report]
  | duringDrift =>
    have hne := hpath.resolve_left (by simp [h])
    simp [validate, apply_steering_rules, h, hne, partial_drift_report,
      partial_test_report, partial_doc_report, partial_bridge_report]
  | duringTest =>
    have hne := hpath.resolve_left (by simp [h])
    simp [validate, apply_steering_rules, h, hne, partial_drift_report,
      partial_test_report, partial_doc_report, partial_bridge_report]
  | duringDoc =>
    have hne := hpath.resolve_left (by simp [h])
    simp [validate, apply_steering_rules, h, hne, partial_drift_report,
      partial_test_report, partial_doc_report, partial_bridge_report]
  | duringBridge =>
    have hne := hpath.resolve_left (by simp [h])
    simp [validate, apply_steering_rules, h, hne, partial_drift_report,
      partial_test_report, partial_doc_report, partial_bridge_report]
  | duringAggregation =>
    have hne := hpath.resolve_left (by simp [h])
    simp [validate, apply_steering_rules, h, hne, partial_drift_report,
      partial_test_report, partial_doc_report, partial_bridge_report]
  | duringSuggestions =>
    have hne := hpath.resolve_left (by simp [h])
    simp [validate, apply_steering_rules, h, hne, partial_drift_report,
      partial_test_report, partial_doc_report, partial_bridge_report]

theorem validate_finalize_shape {σ : Type} (env : Env σ) (git : GitContext)
    (hpath : env.timeoutAt = .duringSetup ∨
      filter_ignored_files env.rules.ignore_patterns (git.stagedFiles.getD []) ≠ []) :
    ∃ t r, validate env git = finalize_result env t r := by
  by_cases htp : env.timeoutAt = .noTimeout
  · have hne := hpath.resolve_left (by simp [htp])
    simp only [validate, apply_steering_rules, htp]
    simp [hne]
  · exact ⟨_, _, validate_timeout_eq env git htp hpath⟩

/-! ### Claims -/

set_option maxRecDepth 8000

/-- C5: what the code actually does on the spec's own example.  The `*` →
`[^/]*` replacement rewrites the `.*` previously produced for `**`, so the
compiled regex for `**/__pycache__/**` is `^.[^/]*/__pycache__/.[^/]*$`; the
root-level `__pycache__/x.pyc` does not match it and `filterIgnored` keeps
the file, contradicting both the spec's example (which expects exactly
`["a.py"]`) and the method's own docstring ("`**` matches any characters
including `/`"). -/
theorem C5_star_clobbers_double_star :
    globToRegex "**/__pycache__/**" = "^.[^/]*/__pycache__/.[^/]*$" ∧
    matches_pattern "__pycache__/x.pyc" "**/__pycache__/**" = false ∧
    filter_ignored_files ["**/__pycache__/**"] ["a.py", "__pycache__/x.pyc"] =
      ["a.py", "__pycache__/x.pyc"] := by
  refine ⟨rfl, rfl, rfl⟩

/-- C6: template expansion substitutes each captured `{name}` into the
target; a `{name}` absent from the source captures is left unexpanded.  On
the spec's example the expansion yields `tests/unit/test_user.py`, the source
pattern captures `module := user`, and an unrelated `{other}` placeholder
survives expansion verbatim. -/
theorem C6_template_expansion :
    expand_pattern "backend/handlers/user.py" "backend/handlers/\x7bmodule\x7d.py"
        "tests/unit/test_\x7bmodule\x7d.py" = "tests/unit/test_user.py" ∧
    reFullMatch "backend/handlers/\x7bmodule\x7d.py" "backend/handlers/user.py" =
      some [("module", "user")] ∧
    expand_pattern "backend/handlers/user.py" "backend/handlers/\x7bmodule\x7d.py"
        "tests/\x7bother\x7d/test_\x7bmodule\x7d.py" = "tests/\x7bother\x7d/test_user.py" := by
  refine ⟨rfl, rfl, rfl⟩

/-- C2: `prioritize_alignment_over_rules` is a pure override: an empty
conflict list returns the result unchanged; a conflict list containing a
high-priority conflict forces `success = false` and `allowCommit = false`
(whatever the input verdict, in particular when `result.success` was true),
with all conflicts appended into `result.conflicts` and the conflict summary
appended to `result.message`. -/
theorem C2_prioritize_alignment_override {σ : Type} (result : ValidationResult σ)
    (conflicts : List Conflict) :
    (conflicts = [] → prioritize_alignment_over_rules conflicts result = result) ∧
    ((∃ c ∈ conflicts, c.priority = "high") →
      (prioritize_alignment_over_rules conflicts result).success = false ∧
      (prioritize_alignment_over_rules conflicts result).allowCommit = false ∧
      (prioritize_alignment_over_rules conflicts result).conflicts =
        some (result.conflicts.getD [] ++ conflicts) ∧
      (prioritize_alignment_over_rules conflicts result).message =
        result.message ++ conflict_summary conflicts) := by
  constructor
  · intro h
    simp [prioritize_alignment_over_rules, h]
  · rintro ⟨c, hc, hp⟩
    have hne : conflicts ≠ [] := by
      rintro rfl
      exact absurd hc (List.not_mem_nil c)
    have hhigh : (conflicts.any fun c => c.priority = "high") = true := by
      rw [List.any_eq_true]
      exact ⟨c, hc, by simp [hp]⟩
    simp [prioritize_alignment_over_rules, hne, hhigh]

/-- C2 witness: a single high-priority conflict flips a passing result. -/
theorem C2_witness :
    (prioritize_alignment_over_rules [cex_conflict] sample_result_true).success = false ∧
    (prioritize_alignment_over_rules [cex_conflict] sample_result_true).allowCommit = false ∧
    sample_result_true.success = true := by
  have h := (C2_prioritize_alignment_override sample_result_true [cex_conflict]).2
    ⟨cex_conflict, by simp, rfl⟩
  exact ⟨h.1, h.2.1, rfl⟩

/-- C10: every conflict `detect_rule_drift_conflicts` emits has type
`ignored_file_with_drift` and priority `high`; consequently, whenever its
output is non-empty, `prioritize_alignment_over_rules` of that output blocks
the commit (`success = false`, `allowCommit = false`) for any input result —
the lower-priority branch is unreachable from the engine's own output. -/
theorem C10_conflicts_always_high {σ : Type} (issues : List Issue)
    (filtered_files all_files : List String) (result : ValidationResult σ) :
    (∀ c ∈ detect_rule_drift_conflicts issues filtered_files all_files,
      c.type = "ignored_file_with_drift" ∧ c.priority = "high") ∧
    (detect_rule_drift_conflicts issues filtered_files all_files ≠ [] →
      (prioritize_alignment_over_rules
        (detect_rule_drift_conflicts issues filtered_files all_files) result).success = false ∧
      (prioritize_alignment_over_rules
        (detect_rule_drift_conflicts issues filtered_files all_files) result).allowCommit = false) := by
  have hall : ∀ c ∈ detect_rule_drift_conflicts issues filtered_files all_files,
      c.type = "ignored_file_with_drift" ∧ c.priority = "high" := by
    intro c hc
    rcases List.mem_filterMap.mp hc with ⟨issue, -, hsome⟩
    by_cases hmem : issue.file.getD "" ∈ all_files ∧ issue.file.getD "" ∉ filtered_files
    · rw [if_pos hmem] at hsome
      cases hsome
      exact ⟨rfl, rfl⟩
    · rw [if_neg hmem] at hsome
      exact absurd hsome (by simp)
  refine ⟨hall, fun hne => ?_⟩
  have hhigh : ((detect_rule_drift_conflicts issues filtered_files all_files).any
      fun c => c.priority = "high") = true := by
    rw [List.any_eq_true]
    match hd : detect_rule_drift_conflicts issues filtered_files all_files with
    | [] => exact absurd hd hne
    | c :: cs =>
      refine ⟨c, by simp, ?_⟩
      have := (hall c (by rw [hd]; exact List.mem_cons_self c cs)).2
      simp [this]
  simp [prioritize_alignment_over_rules, hne, hhigh]

/-- C10 witness: one issue on an ignored staged file yields one high
conflict, and the override blocks a passing result. -/
theorem C10_witness :
    detect_rule_drift_conflicts [cex_issue] [] ["x.py"] = [cex_conflict] ∧
    (prioritize_alignment_over_rules
      (detect_rule_drift_conflicts [cex_issue] [] ["x.py"]) sample_result_true).success = false := by
  refine ⟨rfl, ?_⟩
  exact ((C10_conflicts_always_high [cex_issue] [] ["x.py"] sample_result_true).2
    (by decide)).1

/-- C8 counterexample: two identical issues on the same ignored file flow
into the aggregate as two identical conflicts — the orchestrator folds them
into the result without any `(type, file, description)` deduplication. -/
theorem C8_counterexample :
    c8_aggregate.conflicts =
      some [mk_drift_conflict cex_issue, mk_drift_conflict cex_issue] := by
  rfl

/-- C8 (amended): `detect_rule_drift_conflicts` emits one conflict per issue
whose file is ignored — two issues on the same ignored file give two
independent conflicts — and the orchestrator performs no deduplication: the
whole conflict list, duplicates included, is stored in `result.conflicts`
and its summary appended to the aggregate message. -/
theorem C8_conflicts_not_deduplicated (σ : Type) :
    (∀ (i1 i2 : Issue) (f : String) (filtered all : List String),
      i1.file = some f → i2.file = some f → f ∈ all → f ∉ filtered →
      detect_rule_drift_conflicts [i1, i2] filtered all =
        [mk_drift_conflict i1, mk_drift_conflict i2]) ∧
    (∀ (dr tr docr br : Option Report) (ctx : ValidationContext),
      detect_rule_drift_conflicts (aggregate_all_issues dr tr docr br)
        ctx.filtered_files ctx.all_staged_files ≠ [] →
      (aggregate_validation_results (σ := σ) true dr tr docr br (some ctx)).conflicts =
        some (detect_rule_drift_conflicts (aggregate_all_issues dr tr docr br)
          ctx.filtered_files ctx.all_staged_files) ∧
      (aggregate_validation_results (σ := σ) true dr tr docr br (some ctx)).message =
        (aggregate_base (σ := σ) dr tr docr br).message ++
          conflict_summary (detect_rule_drift_conflicts
            (aggregate_all_issues dr tr docr br)
            ctx.filtered_files ctx.all_staged_files)) := by
  constructor
  · intro i1 i2 f filtered all h1 h2 hin hnot
    simp [detect_rule_drift_conflicts, h1, h2, hin, hnot]
  · intro dr tr docr br ctx hne
    simp only [aggregate_validation_results, if_pos]
    rw [if_pos hne]
    unfold prioritize_alignment_over_rules
    rw [if_neg hne]
    split <;> simp [aggregate_base]

/-- C8 witness: the duplicated-issue report under `c8_context` keeps both
copies of the conflict in the folded result. -/
theorem C8_witness :
    detect_rule_drift_conflicts [cex_issue, cex_issue] [] ["x.py"] =
      [mk_drift_conflict cex_issue, mk_drift_conflict cex_issue] ∧
    c8_aggregate.conflicts =
      some (detect_rule_drift_conflicts
        (aggregate_all_issues (some c8_report) none none none)
        c8_context.filtered_files c8_context.all_staged_files) := by
  constructor
  · exact (C8_conflicts_not_deduplicated Unit).1 cex_issue cex_issue "x.py" [] ["x.py"]
      rfl rfl (by decide) (by decide)
  · exact ((C8_conflicts_not_deduplicated Unit).2 (some c8_report) none none none
      c8_context (by decide)).1

/-- C7: `order_suggestions_by_impact` returns a permutation of the
impact-scored suggestions that is sorted by the key
`(-type_priority, -adjusted priority, file ascending)` (no later element is
strictly below an earlier one under that key), so category always dominates:
a spec suggestion with adjusted priority 8 is ordered before a test
suggestion with adjusted priority 12, and two suggestions with equal category
and equal adjusted priority are ordered by file path ascending. -/
theorem C7_suggestion_ordering :
    (∀ suggestions : List Suggestion,
      List.Perm (order_suggestions_by_impact suggestions)
        (assign_impact_scores suggestions) ∧
      (order_suggestions_by_impact suggestions).Pairwise SuggSortedRel) ∧
    order_suggestions_by_impact [sugg_test12, sugg_spec8] =
      [sugg_spec8, sugg_test12] ∧
    order_suggestions_by_impact [sugg_test5b, sugg_test5a] =
      [sugg_test5a, sugg_test5b] := by
  refine ⟨fun suggestions => ⟨?_, ?_⟩, by decide, by decide⟩
  · exact sortSuggestions_perm (assign_impact_scores suggestions)
  · exact sortSuggestions_pairwise (assign_impact_scores suggestions)

/-- C7 witness: the general ordering facts instantiated at the concrete
spec/test pair. -/
theorem C7_witness :
    List.Perm (order_suggestions_by_impact [sugg_test12, sugg_spec8])
      (assign_impact_scores [sugg_test12, sugg_spec8]) ∧
    (order_suggestions_by_impact [sugg_test12, sugg_spec8]).Pairwise SuggSortedRel :=
  C7_suggestion_ordering.1 [sugg_test12, sugg_spec8]

/-- C9: suggestion generation cannot abort on malformed issues: each
generator is a per-issue map whose results are concatenated (so one issue's
content never prevents the others from being processed), every issue field is
read with a default, and a malformed issue — missing `description` or `file`
— is either skipped (spec generator, and every branch keyed on description
substrings) or yields a best-effort suggestion with empty fields (the
`missing_tests` and `outdated_docs` branches). -/
theorem C9_generators_total_on_malformed :
    (∀ (spec_path : Option String) (issues : List Issue),
      generate_spec_update_suggestions spec_path issues =
        (issues.map (spec_suggestions_for spec_path)).flatten) ∧
    (∀ issues : List Issue, generate_test_addition_suggestions issues =
        (issues.map test_suggestions_for).flatten) ∧
    (∀ issues : List Issue, generate_documentation_update_suggestions issues =
        (issues.map doc_suggestions_for).flatten) ∧
    (∀ (spec_path : Option String) (issue : Issue), issue.description = none →
      spec_suggestions_for spec_path issue = []) ∧
    (test_suggestions_for { type := some "missing_tests" } =
      [{ type := "test", priority := 7, file := "tests/unit/test_.py"
         description := "Create test file for "
         action := "Create tests/unit/test_.py with tests for all public functions in "
         rationale := "Code file has no corresponding test file: " }]) ∧
    (doc_suggestions_for { type := some "outdated_docs" } =
      [{ type := "doc", priority := 5, file := ""
         description := "Remove documentation for removed features"
         action := "Remove documentation for removed functionality"
         rationale := "Documentation describes removed functionality: " }]) := by
  have hs1 : containsSub "" "not defined in spec" = false := by decide
  have hs2 : containsSub "" "not in spec" = false := by decide
  have hs3 : containsSub "" "not found in code" = false := by decide
  have hs4 : containsSub "" "missing from code" = false := by decide
  have hs5 : containsSub "" "missing fields" = false := by decide
  have hs6 : containsSub "" "extra fields" = false := by decide
  refine ⟨?_, ?_, ?_, ?_, by decide, by decide⟩
  · intro spec_path issues
    rw [generate_spec_update_suggestions, foldl_append_eq_flatten]
    simp
  · intro issues
    rw [generate_test_addition_suggestions, foldl_append_eq_flatten]
    simp
  · intro issues
    rw [generate_documentation_update_suggestions, foldl_append_eq_flatten]
    simp
  · intro spec_path issue h
    simp [spec_suggestions_for, h, hs1, hs2, hs3, hs4, hs5, hs6]

/-- C9 witness: the per-issue independence at a concrete malformed issue
(missing description and file) for each generator. -/
theorem C9_witness :
    generate_spec_update_suggestions none [{ type := some "spec" }] =
      ([{ type := some "spec" }].map (spec_suggestions_for none)).flatten ∧
    generate_test_addition_suggestions [{ type := some "missing_tests" }] =
      ([{ type := some "missing_tests" }].map test_suggestions_for).flatten ∧
    spec_suggestions_for none { type := some "spec" } = [] := by
  refine ⟨?_, ?_, ?_⟩
  · exact C9_generators_total_on_malformed.1 none [{ type := some "spec" }]
  · exact C9_generators_total_on_malformed.2.1 [{ type := some "missing_tests" }]
  · exact C9_generators_total_on_malformed.2.2.2.1 none { type := some "spec" } rfl

/-- C1 counterexample: on a run whose filtered file list is empty, a staging
digest mismatch (`"a"` vs `"b"`) does not produce the critical failure the
claim requires for every run — the early return reports success with no
"CRITICAL" in its message. -/
theorem C1_counterexample :
    env_mismatch_empty.stagingBefore ≠ env_mismatch_empty.stagingAfter ∧
    (validate env_mismatch_empty git_empty).success = true ∧
    containsSub (validate env_mismatch_empty git_empty).message "CRITICAL" = false := by
  refine ⟨by decide, rfl, by decide⟩

/-- C1 (amended): on every run that reaches the final staging verification —
every run except the empty-filtered-file early return — a digest mismatch
forces `success = false` and `allowCommit = false` and a message containing
"CRITICAL", regardless of what aggregation concluded. -/
theorem C1_staging_mismatch_dominates {σ : Type} (env : Env σ) (git : GitContext)
    (hmis : env.stagingBefore ≠ env.stagingAfter)
    (hpath : env.timeoutAt = .duringSetup ∨
      filter_ignored_files env.rules.ignore_patterns (git.stagedFiles.getD []) ≠ []) :
    (validate env git).success = false ∧
    (validate env git).allowCommit = false ∧
    containsSub (validate env git).message "CRITICAL" = true ∧
    (validate env git).staging_area_preserved = false := by
  obtain ⟨t, r, hv⟩ := validate_finalize_shape env git hpath
  rw [hv]
  obtain ⟨h1, h2, h3, h4⟩ := finalize_result_of_ne env t r hmis
  refine ⟨h1, h2, ?_, h4⟩
  rw [h3]
  decide

/-- C1 witness: a mismatching run over one staged (unignored) file is
critically blocked. -/
theorem C1_witness :
    (validate env_mismatch_files git_one).success = false ∧
    (validate env_mismatch_files git_one).allowCommit = false ∧
    containsSub (validate env_mismatch_files git_one).message "CRITICAL" = true := by
  have h := C1_staging_mismatch_dominates env_mismatch_files git_one
    (by decide) (Or.inr (by decide))
  exact ⟨h.1, h.2.1, h.2.2.1⟩

/-- C4 counterexample: on the empty-filtered-file path the digests are
compared only into `staging_area_preserved`; a mismatch does not force
`allowCommit = false` as the claim states. -/
theorem C4_counterexample :
    env_mismatch_empty.stagingBefore ≠ env_mismatch_empty.stagingAfter ∧
    (validate env_mismatch_empty git_empty).allowCommit = true ∧
    (validate env_mismatch_empty git_empty).staging_area_preserved = false := by
  refine ⟨by decide, rfl, by decide⟩

/-- C4 (amended): a run whose filtered file list is empty (and in which no
alarm fired before the check) short-circuits to the success result: `success
= true`, `allowCommit = true`, a message containing "No files to validate",
all checkers skipped (`none` reports, no suggestions), and the staging
digests compared only into `staging_area_preserved` — a mismatch on this
path changes neither `success` nor `allowCommit`. -/
theorem C4_empty_files_short_circuit {σ : Type} (env : Env σ) (git : GitContext)
    (h1 : env.timeoutAt ≠ .duringSetup)
    (h2 : filter_ignored_files env.rules.ignore_patterns (git.stagedFiles.getD []) = []) :
    validate env git = no_files_result env ∧
    (validate env git).success = true ∧
    (validate env git).allowCommit = true ∧
    containsSub (validate env git).message "No files to validate" = true ∧
    (validate env git).drift_report = none ∧
    (validate env git).test_report = none ∧
    (validate env git).doc_report = none ∧
    (validate env git).bridge_report = none ∧
    (validate env git).suggestions = none ∧
    (validate env git).timed_out = false ∧
    (validate env git).staging_area_preserved =
      (env.stagingBefore == env.stagingAfter) := by
  have hv := validate_early_eq env git h1 h2
  rw [hv]
  have hmsg : containsSub "No files to validate (all files ignored by steering rules)"
      "No files to validate" = true := by decide
  exact ⟨rfl, rfl, rfl, hmsg, rfl, rfl, rfl, rfl, rfl, rfl, rfl⟩

/-- C4 witness: the empty-staged-file scenario returns the success
short-circuit. -/
theorem C4_witness :
    (validate env_mismatch_empty git_empty).success = true ∧
    (validate env_mismatch_empty git_empty).allowCommit = true ∧
    containsSub (validate env_mismatch_empty git_empty).message
      "No files to validate" = true := by
  have h := C4_empty_files_short_circuit env_mismatch_empty git_empty
    (by decide) (by decide)
  exact ⟨h.2.1, h.2.2.1, h.2.2.2.1⟩

/-- C3: a run in which the shared timeout fires is fatal and commit-blocking
(`success = false`, `allowCommit = false`), is flagged `timed_out` with
`partial_results`, carries exactly the checker reports computed before the
alarm fired (`partial_*_report`), produces no suggestions, and still
performs the staging verification before returning: matching digests are
recorded as preserved, a mismatch downgrades the run to the critical staging
error. -/
theorem C3_timeout_fatal_partial {σ : Type} (env : Env σ) (git : GitContext)
    (htp : env.timeoutAt ≠ .noTimeout)
    (hpath : env.timeoutAt = .duringSetup ∨
      filter_ignored_files env.rules.ignore_patterns (git.stagedFiles.getD []) ≠ []) :
    (validate env git).success = false ∧
    (validate env git).allowCommit = false ∧
    (validate env git).timed_out = true ∧
    (validate env git).partial_results = some true ∧
    (validate env git).suggestions = none ∧
    (validate env git).drift_report = partial_drift_report env ∧
    (validate env git).test_report = partial_test_report env ∧
    (validate env git).doc_report = partial_doc_report env ∧
    (validate env git).bridge_report = partial_bridge_report env ∧
    (env.stagingBefore = env.stagingAfter →
      (validate env git).staging_area_preserved = true) ∧
    (env.stagingBefore ≠ env.stagingAfter →
      (validate env git).staging_area_preserved = false ∧
      containsSub (validate env git).message "CRITICAL" = true) := by
  have hv := validate_timeout_eq env git htp hpath
  rw [hv]
  obtain ⟨hd, ht2, hdoc, hb, hsug, htim, hpar⟩ :=
    finalize_result_reports env true (timeout_result env
      (partial_drift_report env) (partial_test_report env)
      (partial_doc_report env) (partial_bridge_report env))
  refine ⟨?_, ?_, htim, hpar, ?_, ?_, ?_, ?_, ?_, ?_, ?_⟩
  · by_cases hse : env.stagingBefore = env.stagingAfter
    · rw [(finalize_result_of_eq env true _ hse).1]; rfl
    · exact (finalize_result_of_ne env true _ hse).1
  · by_cases hse : env.stagingBefore = env.stagingAfter
    · rw [(finalize_result_of_eq env true _ hse).2.1]; rfl
    · exact (finalize_result_of_ne env true _ hse).2.1
  · rw [hsug]; rfl
  · rw [hd]; rfl
  · rw [ht2]; rfl
  · rw [hdoc]; rfl
  · rw [hb]; rfl
  · intro hse
    exact (finalize_result_of_eq env true _ hse).2.2.2
  · intro hse
    refine ⟨(finalize_result_of_ne env true _ hse).2.2.2, ?_⟩
    rw [(finalize_result_of_ne env true _ hse).2.2.1]
    decide

/-- C3 witness: the alarm firing during the test stage blocks the commit,
flags the timeout, drops suggestions, and keeps the completed drift
report. -/
theorem C3_witness :
    (validate env_timeout_test git_one).success = false ∧
    (validate env_timeout_test git_one).timed_out = true ∧
    (validate env_timeout_test git_one).suggestions = none ∧
    (validate env_timeout_test git_one).drift_report =
      partial_drift_report env_timeout_test := by
  have h := C3_timeout_fatal_partial env_timeout_test git_one
    (by decide) (Or.inr (by decide))
  exact ⟨h.1, h.2.2.1, h.2.2.2.2.1, h.2.2.2.2.2.1⟩
